import Mathlib

/-!
Verification of the Scenario IFSEI Home Assistant integration
(`custom_components/scenario`): a shallow embedding of the light and cover
entity adapters (`light.py`, `cover.py`, `__init__.py`) together with proofs
about the level mappers, the command dispatch paths and the notification
callbacks.

Machine integers are modelled as `Nat` (the Python values involved are
non-negative device levels). Python `round` is round-half-to-even on the
exact rational; for the ratios used here (`level*100/255`, `level*255/100`
with the documented input ranges) the intermediate float is never close
enough to a half-integer boundary for the float result to differ from the
exact rational rounding, and the exact half-integer cases (multiples such as
`127.5`) are represented exactly, so the embedding uses exact
round-half-to-even arithmetic.
-/

namespace Scenario

/-- Round-half-to-even of the rational `num / den`, as computed by Python's
built-in `round` on the exact value. -/
def pyRound (num den : Nat) : Nat :=
  if 2 * (num % den) < den then num / den
  else if den < 2 * (num % den) then num / den + 1
  else if (num / den) % 2 = 0 then num / den else num / den + 1

/-- `light.py`: `to_scenario_level(level) = round((level * 100) / 255)`. -/
def to_scenario_level (level : Nat) : Nat :=
  pyRound (level * 100) 255

/-- `light.py`: `to_hass_level(level) = round((level * 255) / 100)`. -/
def to_hass_level (level : Nat) : Nat :=
  pyRound (level * 255) 100

/-- Home Assistant color modes used by `ScenarioLight.__init__`. -/
inductive ColorMode where
  | rgbw
  | brightness
  | onoff
deriving DecidableEq, Repr

/-- One entry of `light.address`: a dict with an `isDimmeable` flag. -/
structure Address where
  isDimmeable : Bool
deriving DecidableEq, Repr

/-- `ScenarioLight.__init__` color-mode selection: starting from the
entity-base default (`None`), if the device is not RGB the loop assigns
`_attr_color_mode` once per address (so the last address's flag wins);
otherwise it assigns RGBW. -/
def initColorMode (is_rgb : Bool) (addresses : List Address) : Option ColorMode :=
  if !is_rgb then
    addresses.foldl
      (fun _ address =>
        if address.isDimmeable then some ColorMode.brightness
        else some ColorMode.onoff)
      none
  else
    some ColorMode.rgbw

/-- The mutable display state of a `ScenarioLight` entity: `_attr_brightness`,
`_attr_rgbw_color`, `_attr_available` and the fixed `_attr_color_mode`. -/
structure LightState where
  attr_brightness : Option Nat
  attr_rgbw_color : Option (Nat × Nat × Nat × Nat)
  attr_available : Bool
  attr_color_mode : Option ColorMode
deriving DecidableEq, Repr

/-- `ScenarioLight.is_on`: defined (as in the source) only when both
`_attr_brightness` and `_attr_rgbw_color` are not `None`; otherwise `False`. -/
def is_on (s : LightState) : Bool :=
  match s.attr_brightness, s.attr_rgbw_color with
  | some b, some (r, g, bl, w) =>
      decide (0 < b ∨ r ≠ 0 ∨ g ≠ 0 ∨ bl ≠ 0 ∨ w ≠ 0)
  | _, _ => false

/-- The `scaled_colors` list computed by `ScenarioLight._async_set_brightness`
from the (host-scale) brightness argument and optional RGBW color argument. -/
def set_brightness_colors (brightness : Option Nat)
    (rgbw : Option (Nat × Nat × Nat × Nat)) : List Nat :=
  match rgbw with
  | some (r, g, b, w) =>
      [to_scenario_level r, to_scenario_level g, to_scenario_level b,
       to_scenario_level w]
  | none =>
      [0, 0, 0, (brightness.map to_scenario_level).getD 0]

/-- A light-state update issued to the controller:
`async_update_light_state(unique_id, scaled_colors)`. -/
structure LightCall where
  unique_id : String
  colors : List Nat
deriving DecidableEq, Repr

/-- `ScenarioLight._async_set_brightness`: the controller call is issued only
when `device_manager is not None and _attr_unique_id is not None`; otherwise
the operation is skipped without raising. -/
def async_set_brightness (device_manager_present : Bool)
    (unique_id : Option String) (brightness : Option Nat)
    (rgbw : Option (Nat × Nat × Nat × Nat)) : Option LightCall :=
  if device_manager_present then
    match unique_id with
    | some uid => some ⟨uid, set_brightness_colors brightness rgbw⟩
    | none => none
  else
    none

/-- `ScenarioLight.async_turn_on`: a missing brightness argument defaults to
255; the RGBW color argument passes through unchanged. -/
def async_turn_on (device_manager_present : Bool) (unique_id : Option String)
    (brightness : Option Nat) (rgbw : Option (Nat × Nat × Nat × Nat)) :
    Option LightCall :=
  async_set_brightness device_manager_present unique_id
    (some (brightness.getD 255)) rgbw

/-- `ScenarioLight.async_turn_off`: brightness forced to 0, remaining
keyword arguments (the color argument, if any) passed through. -/
def async_turn_off (device_manager_present : Bool) (unique_id : Option String)
    (rgbw : Option (Nat × Nat × Nat × Nat)) : Option LightCall :=
  async_set_brightness device_manager_present unique_id (some 0) rgbw

/-- The keyword fields a light notification may carry
(`brightness`, `available`, `red`, `green`, `blue`), each optional. -/
structure LightNotification where
  brightness : Option Nat
  available : Option Bool
  red : Option Nat
  green : Option Nat
  blue : Option Nat
deriving Repr

/-- `ScenarioLight.async_update_callback`: applies `available` first, then
`brightness` (gated on the current availability flag), then the RGBW channel
updates (gated on RGBW color mode and availability), and finally signals a
re-render (the returned `Bool`, always `true`). -/
def async_update_callback (s : LightState) (k : LightNotification) :
    LightState × Bool :=
  let s :=
    match k.available with
    | some a => { s with attr_available := a }
    | none => s
  let s :=
    match k.brightness with
    | some b =>
        if s.attr_available then
          { s with attr_brightness := some (to_hass_level b) }
        else s
    | none => s
  let s :=
    if s.attr_color_mode = some ColorMode.rgbw ∧ s.attr_available = true then
      let cur := s.attr_rgbw_color.getD (0, 0, 0, 0)
      let c0 := match k.red with
        | some v => to_hass_level v
        | none => cur.1
      let c1 := match k.green with
        | some v => to_hass_level v
        | none => cur.2.1
      let c2 := match k.blue with
        | some v => to_hass_level v
        | none => cur.2.2.1
      let c3 := match k.brightness with
        | some v => to_hass_level v
        | none => cur.2.2.2
      { s with attr_rgbw_color := some (c0, c1, c2, c3) }
    else s
  (s, true)

/-- Folding a sequence of notifications through the light callback. -/
def run_light_notifications (s : LightState) (ks : List LightNotification) :
    LightState :=
  ks.foldl (fun st k => (async_update_callback st k).1) s

/-- Controller command codes compared against in
`ScenarioCover.async_update_callback` (`IFSEI_COVER_UP` / `_DOWN` / `_STOP`,
plus any other value). -/
inductive CoverCommand where
  | up
  | down
  | stop
  | other (code : Nat)
deriving DecidableEq, Repr

/-- Scene states compared against in the cover callback
(`IFSEI_ATTR_SCENE_ACTIVE` / `_INACTIVE`, plus any other value). -/
inductive SceneState where
  | active
  | inactive
  | other (code : Nat)
deriving DecidableEq, Repr

/-- The mutable display state of a `ScenarioCover` entity. -/
structure CoverState where
  attr_is_closed : Bool
  attr_is_opening : Option Bool
  attr_is_closing : Option Bool
  attr_available : Bool
deriving DecidableEq, Repr

/-- The keyword fields a cover notification may carry. -/
structure CoverNotification where
  available : Option Bool
  command : Option CoverCommand
  state : Option SceneState
deriving Repr

/-- `ScenarioCover.async_update_callback`: applies `available` first, then
interprets the `command`/`state` pair (when both are present), and finally
signals a re-render (the returned `Bool`, always `true`). -/
def cover_async_update_callback (s : CoverState) (k : CoverNotification) :
    CoverState × Bool :=
  let s :=
    match k.available with
    | some a => { s with attr_available := a }
    | none => s
  let s :=
    match k.command, k.state with
    | some c, some st =>
        if c = CoverCommand.down ∧ st = SceneState.active then
          { s with attr_is_closed := true }
        else if c = CoverCommand.up ∧ st = SceneState.active then
          { s with attr_is_closed := false }
        else if c = CoverCommand.stop ∧
            (st = SceneState.active ∨ st = SceneState.inactive) then
          { s with attr_is_closing := some false, attr_is_opening := some false }
        else s
    | _, _ => s
  (s, true)

/-- Folding a sequence of notifications through the cover callback. -/
def run_cover_notifications (s : CoverState) (ks : List CoverNotification) :
    CoverState :=
  ks.foldl (fun st k => (cover_async_update_callback st k).1) s

/-- Outcome of a cover command dispatch: either a controller call
`async_update_cover_state(unique_id, code)` is issued, or the attribute
access `self._ifsei.device_manager.async_update_cover_state` raises
`AttributeError` because `device_manager` is `None`. -/
inductive CoverCallResult where
  | call (unique_id : Option String) (code : Nat)
  | attributeError
deriving DecidableEq, Repr

/-- `ScenarioCover.async_open_cover`: calls
`self._ifsei.device_manager.async_update_cover_state(self.unique_id, self.up)`
with no guard on `unique_id` or `device_manager`. -/
def async_open_cover (device_manager_present : Bool)
    (unique_id : Option String) (up : Nat) : CoverCallResult :=
  if device_manager_present then CoverCallResult.call unique_id up
  else CoverCallResult.attributeError

/-- `ScenarioCover.async_close_cover`: same shape, sends `self.down`. -/
def async_close_cover (device_manager_present : Bool)
    (unique_id : Option String) (down : Nat) : CoverCallResult :=
  if device_manager_present then CoverCallResult.call unique_id down
  else CoverCallResult.attributeError

/-- `ScenarioCover.async_stop_cover`: same shape, sends `self.stop`. -/
def async_stop_cover (device_manager_present : Bool)
    (unique_id : Option String) (stop_code : Nat) : CoverCallResult :=
  if device_manager_present then CoverCallResult.call unique_id stop_code
  else CoverCallResult.attributeError

/-- The controller-connection handle as seen by the entities: its live
`is_connected` flag and whether `device_manager` is set. -/
structure IFSEI where
  is_connected : Bool
  device_manager_present : Bool
deriving DecidableEq, Repr

/-- `ScenarioUpdatableEntity.available`: `return self._ifsei.is_connected`.
The entity's cached `_attr_available` flag is in scope (second argument) but
unused. -/
def entity_available (ifsei : IFSEI) (_attr_available_cached : Bool) : Bool :=
  ifsei.is_connected

/-! ### Helper lemmas about `pyRound` -/

theorem le_pyRound (num den : Nat) : num / den ≤ pyRound num den := by
  unfold pyRound
  split_ifs <;> omega

theorem pyRound_le (num den : Nat) : pyRound num den ≤ num / den + 1 := by
  unfold pyRound
  split_ifs <;> omega

theorem pyRound_mono (a b den : Nat) (hab : a ≤ b) :
    pyRound a den ≤ pyRound b den := by
  rcases Nat.lt_or_ge (a / den) (b / den) with hlt | hge
  · have h1 := pyRound_le a den
    have h2 := le_pyRound b den
    omega
  · have hq : a / den = b / den :=
      Nat.le_antisymm (Nat.div_le_div_right hab) hge
    have hmul : den * (a / den) = den * (b / den) := by rw [hq]
    have hda := Nat.div_add_mod a den
    have hdb := Nat.div_add_mod b den
    have hr : a % den ≤ b % den := by omega
    unfold pyRound
    rw [hq]
    split_ifs <;> omega

theorem to_scenario_level_mono (a b : Nat) (hab : a ≤ b) :
    to_scenario_level a ≤ to_scenario_level b :=
  pyRound_mono _ _ _ (Nat.mul_le_mul_right _ hab)

theorem to_hass_level_mono (a b : Nat) (hab : a ≤ b) :
    to_hass_level a ≤ to_hass_level b :=
  pyRound_mono _ _ _ (Nat.mul_le_mul_right _ hab)

/-- A fold that overwrites the accumulator on every element returns the value
for the last element (or the initial value on the empty list); this is the
shape of the color-mode assignment loop in `ScenarioLight.__init__`. -/
theorem foldl_const_update {α β : Type} (f : α → β) (l : List α)
    (init : Option β) :
    l.foldl (fun _ a => some (f a)) init =
      match l.getLast? with
      | some a => some (f a)
      | none => init := by
  induction l generalizing init with
  | nil => rfl
  | cons x xs ih =>
      rw [List.foldl_cons, ih]
      cases hxs : xs.getLast? with
      | some a => simp [List.getLast?_cons, hxs]
      | none =>
          have : xs = [] := by
            cases xs with
            | nil => rfl
            | cons y ys => simp [List.getLast?_cons] at hxs
          subst this
          rfl

/-- The light callback never changes the fixed `_attr_color_mode`. -/
theorem callback_preserves_color_mode (s : LightState)
    (k : LightNotification) :
    ((async_update_callback s k).1).attr_color_mode = s.attr_color_mode := by
  rcases k with ⟨kb, ka, kr, kg, kbl⟩
  rcases ka with _ | a <;> rcases kb with _ | b <;>
    simp [async_update_callback] <;> split_ifs <;> simp_all

/-- One light-callback step leaves `_attr_rgbw_color` untouched whenever the
color mode is not RGBW. -/
theorem callback_rgbw_frame (s : LightState) (k : LightNotification)
    (h : s.attr_color_mode ≠ some ColorMode.rgbw) :
    ((async_update_callback s k).1).attr_rgbw_color = s.attr_rgbw_color := by
  rcases k with ⟨kb, ka, kr, kg, kbl⟩
  rcases ka with _ | a <;> rcases kb with _ | b <;>
    simp [async_update_callback] <;> split_ifs <;> simp_all

/-! ### Claim theorems -/

/-- C7: the level mappers take the exact values
`to_scenario_level 0 = 0`, `to_scenario_level 255 = 100`,
`to_scenario_level 128 = 50`, `to_hass_level 0 = 0`,
`to_hass_level 100 = 255`, `to_hass_level 50 = 128`, and each rounds its
scaled input to a nearest integer: `to_scenario_level l` is within one half
of `l * 100 / 255` and `to_hass_level l` is within one half of
`l * 255 / 100` (stated multiplied out to stay in `Nat`). -/
theorem level_mapper_values :
    to_scenario_level 0 = 0 ∧ to_scenario_level 255 = 100 ∧
    to_scenario_level 128 = 50 ∧
    to_hass_level 0 = 0 ∧ to_hass_level 100 = 255 ∧ to_hass_level 50 = 128 ∧
    (∀ l : Nat,
      2 * (l * 100) ≤ 2 * (to_scenario_level l * 255) + 255 ∧
      2 * (to_scenario_level l * 255) ≤ 2 * (l * 100) + 255) ∧
    (∀ l : Nat,
      2 * (l * 255) ≤ 2 * (to_hass_level l * 100) + 100 ∧
      2 * (to_hass_level l * 100) ≤ 2 * (l * 255) + 100) := by
  refine ⟨by decide, by decide, by decide, by decide, by decide, by decide,
    fun l => ?_, fun l => ?_⟩
  · unfold to_scenario_level pyRound
    split_ifs <;> omega
  · unfold to_hass_level pyRound
    split_ifs <;> omega

/-- C9: both level mappers are monotone non-decreasing (everywhere, hence on
the documented ranges), `to_scenario_level` maps `0..255` into `0..100`, and
`to_hass_level` maps `0..100` into `0..255`. -/
theorem level_mappers_monotone_range (a b : Nat) (hab : a ≤ b) :
    to_scenario_level a ≤ to_scenario_level b ∧
    to_hass_level a ≤ to_hass_level b ∧
    (b ≤ 255 → to_scenario_level b ≤ 100) ∧
    (b ≤ 100 → to_hass_level b ≤ 255) := by
  refine ⟨to_scenario_level_mono a b hab, to_hass_level_mono a b hab,
    fun h => ?_, fun h => ?_⟩
  · have hm := to_scenario_level_mono b 255 h
    have hv : to_scenario_level 255 = 100 := by decide
    omega
  · have hm := to_hass_level_mono b 100 h
    have hv : to_hass_level 100 = 255 := by decide
    omega

/-- Witness for C9 at the concrete pair `a = 50`, `b = 100`. -/
theorem level_mappers_monotone_range_witness :
    to_scenario_level 50 ≤ to_scenario_level 100 ∧
    to_hass_level 50 ≤ to_hass_level 100 ∧
    (100 ≤ 255 → to_scenario_level 100 ≤ 100) ∧
    (100 ≤ 100 → to_hass_level 100 ≤ 255) :=
  level_mappers_monotone_range 50 100 (by decide)

/-- C1 (the code violates the claim; its own test
`test_missing_unique_id_for_commands` expects the claimed behavior): the
light dispatch does skip when the unique id or device manager is missing,
but every cover command issues the controller call even when the unique id
is `None`, and raises `AttributeError` when the device manager is `None`. -/
theorem cover_dispatch_missing_guard :
    async_open_cover true none 1 = CoverCallResult.call none 1 ∧
    async_close_cover false (some "shade") 2 =
      CoverCallResult.attributeError ∧
    async_stop_cover false none 3 = CoverCallResult.attributeError ∧
    async_set_brightness true none (some 255) none = none ∧
    async_set_brightness false (some "light1") (some 255) none = none :=
  ⟨rfl, rfl, rfl, rfl, rfl⟩

/-- C2 counterexample: a non-RGB device whose first address is dimmable and
whose second is not ends up in on/off mode — the claim ("brightness-only if
any address is dimmable") predicts brightness-only here. -/
theorem initColorMode_any_dimmable_cex :
    initColorMode false [⟨true⟩, ⟨false⟩] = some ColorMode.onoff ∧
    initColorMode false [⟨true⟩, ⟨false⟩] ≠ some ColorMode.brightness := by
  decide

/-- C2 (amended): the fixed color mode is RGBW if the device is RGB-capable;
otherwise it is decided by the *last* address in the list — brightness-only
if the last address is dimmable, on/off-only if not — and is left unset when
a non-RGB device has no addresses. -/
theorem initColorMode_spec (is_rgb : Bool) (addresses : List Address) :
    initColorMode is_rgb addresses =
      if is_rgb then some ColorMode.rgbw
      else
        match addresses.getLast? with
        | some a =>
            some (if a.isDimmeable then ColorMode.brightness
              else ColorMode.onoff)
        | none => none := by
  cases is_rgb with
  | true => rfl
  | false =>
      simp only [initColorMode, Bool.not_false, if_true, if_false]
      have h := foldl_const_update
        (fun a : Address =>
          if a.isDimmeable then ColorMode.brightness else ColorMode.onoff)
        addresses none
      rw [show (fun (_ : Option ColorMode) (address : Address) =>
          if address.isDimmeable then some ColorMode.brightness
          else some ColorMode.onoff) =
          (fun (_ : Option ColorMode) (a : Address) =>
          some (if a.isDimmeable then ColorMode.brightness
            else ColorMode.onoff))
        from by funext x a; split_ifs <;> rfl]
      rw [h]
      simp only [Bool.false_eq_true, if_false]
      cases addresses.getLast? <;> rfl

/-- C3: on the dispatching path (device manager and unique id present),
`turn_on` with no arguments sends `[0, 0, 0, 100]`, `turn_off` sends
`[0, 0, 0, 0]`, and for any RGBW color argument the output is the four
channels in R,G,B,W order, each mapped through `to_scenario_level`
independently, with the brightness argument ignored. -/
theorem light_command_output (u : String) (b : Option Nat) (r g bl w : Nat) :
    async_turn_on true (some u) none none = some ⟨u, [0, 0, 0, 100]⟩ ∧
    async_turn_off true (some u) none = some ⟨u, [0, 0, 0, 0]⟩ ∧
    async_turn_on true (some u) b (some (r, g, bl, w)) =
      some ⟨u, [to_scenario_level r, to_scenario_level g,
        to_scenario_level bl, to_scenario_level w]⟩ :=
  ⟨rfl, rfl, rfl⟩

/-- C4: the light callback applies a `brightness` field (through
`to_hass_level`) exactly when the availability flag is true at the moment of
the check, and an `available` field in the same notification is applied
first — so `available: true` together with `brightness` does allow the
update, and brightness is left unchanged when availability is false. -/
theorem brightness_applied_iff_available (s : LightState)
    (k : LightNotification) :
    ((async_update_callback s k).1).attr_brightness =
      match k.brightness with
      | some b =>
          if k.available.getD s.attr_available then some (to_hass_level b)
          else s.attr_brightness
      | none => s.attr_brightness := by
  rcases k with ⟨kb, ka, kr, kg, kbl⟩
  rcases ka with _ | a <;> rcases kb with _ | b <;>
    simp [async_update_callback, Option.getD] <;>
    split_ifs <;> simp_all

/-- C5: for a cover notification carrying both a command and a state:
down+active sets closed, up+active clears closed, stop+active and
stop+inactive set both transient flags to false regardless of their prior
values, every other combination leaves the closed/opening/closing state
unchanged, and a re-render is signalled in all cases. -/
theorem cover_callback_spec (s : CoverState) (a : Option Bool)
    (c : CoverCommand) (st : SceneState) :
    (cover_async_update_callback s ⟨a, some c, some st⟩).2 = true ∧
    ((cover_async_update_callback s ⟨a, some c, some st⟩).1).attr_is_closed =
      (if c = CoverCommand.down ∧ st = SceneState.active then true
       else if c = CoverCommand.up ∧ st = SceneState.active then false
       else s.attr_is_closed) ∧
    ((cover_async_update_callback s ⟨a, some c, some st⟩).1).attr_is_opening =
      (if c = CoverCommand.stop ∧
          (st = SceneState.active ∨ st = SceneState.inactive) then some false
       else s.attr_is_opening) ∧
    ((cover_async_update_callback s ⟨a, some c, some st⟩).1).attr_is_closing =
      (if c = CoverCommand.stop ∧
          (st = SceneState.active ∨ st = SceneState.inactive) then some false
       else s.attr_is_closing) := by
  rcases a with _ | av <;>
    simp only [cover_async_update_callback] <;>
    split_ifs <;> simp_all

/-- C6 counterexample: with `_attr_brightness = None` and a non-zero RGBW
channel, `is_on` is `False` — the claim predicts `True` there (it says an
absent brightness defaults to 0, so a non-zero channel should win). -/
theorem is_on_missing_brightness_cex :
    is_on ⟨none, some (0, 0, 255, 0), true, some ColorMode.rgbw⟩ = false := by
  decide

/-- C6 (amended): `is_on` is true iff *both* brightness and the RGBW tuple
are present and brightness is positive or some channel is non-zero; when
either attribute is `None` the property returns false (it never raises, but
it does not default the missing value to 0). -/
theorem is_on_spec (s : LightState) :
    is_on s = true ↔
      ∃ b r g bl w, s.attr_brightness = some b ∧
        s.attr_rgbw_color = some (r, g, bl, w) ∧
        (0 < b ∨ r ≠ 0 ∨ g ≠ 0 ∨ bl ≠ 0 ∨ w ≠ 0) := by
  rcases s with ⟨sb, sc, sa, sm⟩
  rcases sb with _ | b <;> rcases sc with _ | ⟨r, g, bl, w⟩
  · simp [is_on]
  · simp [is_on]
  · simp [is_on]
  · constructor
    · intro h
      refine ⟨b, r, g, bl, w, rfl, rfl, ?_⟩
      simpa [is_on] using h
    · rintro ⟨b', r', g', bl', w', hb, hc, h⟩
      simp only [Option.some.injEq, Prod.mk.injEq] at hb hc
      obtain rfl := hb
      obtain ⟨rfl, rfl, rfl, rfl⟩ := hc
      simpa [is_on] using h

/-- C8: the public `available` property always returns the controller
connection's live `is_connected`, whatever sequence of notifications either
a light or a cover entity has processed — the cached `_attr_available`
written by callbacks never feeds it. -/
theorem available_is_live_passthrough (ifsei : IFSEI) (s : LightState)
    (ks : List LightNotification) (cs : CoverState)
    (cks : List CoverNotification) :
    entity_available ifsei (run_light_notifications s ks).attr_available =
      ifsei.is_connected ∧
    entity_available ifsei (run_cover_notifications cs cks).attr_available =
      ifsei.is_connected :=
  ⟨rfl, rfl⟩

/-- C10: for a light whose color mode is not RGBW, no sequence of
notifications ever modifies the stored RGBW tuple, whatever fields the
notifications carry. -/
theorem non_rgbw_never_touches_rgbw (s : LightState)
    (ks : List LightNotification)
    (h : s.attr_color_mode ≠ some ColorMode.rgbw) :
    (run_light_notifications s ks).attr_rgbw_color = s.attr_rgbw_color := by
  induction ks generalizing s with
  | nil => rfl
  | cons k ks ih =>
      have hcm := callback_preserves_color_mode s k
      have hframe := callback_rgbw_frame s k h
      simp only [run_light_notifications, List.foldl_cons] at *
      rw [ih _ (by rw [hcm]; exact h), hframe]

/-- Witness for C10: an on/off light keeps its constructed `(0, 0, 0, 0)`
tuple through a notification carrying brightness and all three colors. -/
theorem non_rgbw_never_touches_rgbw_witness :
    (run_light_notifications
      ⟨some 0, some (0, 0, 0, 0), true, some ColorMode.onoff⟩
      [⟨some 50, some true, some 10, some 20, some 30⟩]).attr_rgbw_color =
      some (0, 0, 0, 0) :=
  non_rgbw_never_touches_rgbw _ _ (by decide)

end Scenario
